import Mathlib

/-!
Verification of the RustDDS "shapes" interoperability client
(`src/RustDDS/src/main.rs`).

The development shallowly embeds the parts of the program with real
control flow and invariants: the pure shape-motion function `move_shape`,
the history-QoS construction, the cancellation (`STOP_PROGRAM`) arm, the
subscriber drain (`READER_READY`) arm, and one iteration of the publisher
loop.  Machine integers (`i32`) are modelled as `Int`; `/` on `i32`
truncates toward zero, which is `Int.tdiv`.
-/

namespace DDSInterop

/-- The `Shape` struct of the program: a color (its key), a position and a size. -/
structure Shape where
  color : String
  x : Int
  y : Int
  shapesize : Int
deriving DecidableEq, Repr

/-- Drawing-area width constant `DA_WIDTH`. -/
def DA_WIDTH : Int := 240

/-- Drawing-area height constant `DA_HEIGHT`. -/
def DA_HEIGHT : Int := 270

/-- The `half_size` computed at the top of `move_shape`:
`shape.shapesize/2 + 1` with Rust `i32` division (truncation toward zero). -/
def half_size (shapesize : Int) : Int := Int.tdiv shapesize 2 + 1

/-- The `move_shape` function of the program.  The sequence of mutations of
the Rust locals `x`, `y`, `xv_new`, `yv_new` is unfolded into successive
`let` bindings; each of the four `if` statements both pins the coordinate
and sets the velocity component to the negation of the *input* component. -/
def move_shape (shape : Shape) (xv : Int) (yv : Int) : Shape × Int × Int :=
  let h := half_size shape.shapesize
  let x1 := shape.x + xv
  let y1 := shape.y + yv
  let x2 := if x1 < h then h else x1
  let xv2 := if x1 < h then -xv else xv
  let x3 := if x2 > DA_WIDTH - h then DA_WIDTH - h else x2
  let xv3 := if x2 > DA_WIDTH - h then -xv else xv2
  let y2 := if y1 < h then h else y1
  let yv2 := if y1 < h then -yv else yv
  let y3 := if y2 > DA_HEIGHT - h then DA_HEIGHT - h else y2
  let yv3 := if y2 > DA_HEIGHT - h then -yv else yv2
  (⟨shape.color, x3, y3, shape.shapesize⟩, xv3, yv3)

example :
    move_shape ⟨"BLUE", 1, 1, 20⟩ (-3) (-3) = (⟨"BLUE", 11, 11, 20⟩, 3, 3) := by
  decide

example :
    move_shape ⟨"BLUE", 120, 120, 20⟩ 3 3 = (⟨"BLUE", 123, 123, 20⟩, 3, 3) := by
  decide

/-- Outcome of `stop_receiver.try_recv()`: either a unit value was received
(`ok`) or the channel reported an error / was empty (`err`). -/
inductive RecvResult where
  | ok
  | err
deriving DecidableEq, Repr

/-- The `STOP_PROGRAM` arm shared by both roles: on `Ok(_)` the program
prints "Done." and returns (modelled as `true` = terminate); on `Err(_)`
it does nothing and the loop continues (`false`). -/
def stop_program_arm (recv : RecvResult) : Bool :=
  match recv with
  | RecvResult.ok => true
  | RecvResult.err => false

/-- One outcome of `reader.take_next_sample()` in the subscriber:
`sample` is `Ok(Some(s))` whose `into_value()` is `Ok`, `disposed` is
`Ok(Some(s))` whose `into_value()` is `Err(key)`, `noData` is `Ok(None)`,
and `takeError` is `Err(e)`. -/
inductive TakeOutcome where
  | sample (s : Shape)
  | disposed (key : String)
  | noData
  | takeError (e : String)
deriving DecidableEq, Repr

/-- One line printed by the subscriber drain loop. -/
inductive SubOutput where
  | printedSample (topic : String) (s : Shape)
  | printedDisposed (key : String)
  | printedError (e : String)
deriving DecidableEq, Repr

/-- The `READER_READY` arm: the inner `loop` keeps taking samples from the
reader.  A valued sample and a disposed key are printed, a take error is
printed and the loop continues, and only `Ok(None)` (`noData`) breaks the
loop.  The reader is modelled as the list of outcomes its successive
`take_next_sample()` calls produce; the function returns the printed lines
and the part of the outcome list not consumed. -/
def reader_ready_arm (topic : String) :
    List TakeOutcome → List SubOutput × List TakeOutcome
  | [] => ([], [])
  | TakeOutcome.sample s :: rest =>
      let r := reader_ready_arm topic rest
      (SubOutput.printedSample topic s :: r.1, r.2)
  | TakeOutcome.disposed k :: rest =>
      let r := reader_ready_arm topic rest
      (SubOutput.printedDisposed k :: r.1, r.2)
  | TakeOutcome.noData :: _rest => ([], _rest)
  | TakeOutcome.takeError e :: rest =>
      let r := reader_ready_arm topic rest
      (SubOutput.printedError e :: r.1, r.2)

/-- The report the drain prints for one taken item (`noData` is never
printed: it terminates the drain instead). -/
def take_report (topic : String) : TakeOutcome → List SubOutput
  | TakeOutcome.sample s => [SubOutput.printedSample topic s]
  | TakeOutcome.disposed k => [SubOutput.printedDisposed k]
  | TakeOutcome.takeError e => [SubOutput.printedError e]
  | TakeOutcome.noData => []

/-- An event delivered by `poll` to the subscriber loop, tagged by token. -/
inductive SubEvent where
  | stopProgram (recv : RecvResult)
  | readerReady (takes : List TakeOutcome)
  | statusReady (statuses : List String)
  | otherToken (t : Nat)

/-- One iteration of the subscriber `for event in events` dispatch: returns
the printed lines and whether the `return` in the `STOP_PROGRAM` arm fired
(terminating the process). -/
def subscriber_iteration (topic : String) : List SubEvent → List SubOutput × Bool
  | [] => ([], false)
  | SubEvent.stopProgram r :: rest =>
      if stop_program_arm r then ([], true)
      else subscriber_iteration topic rest
  | SubEvent.readerReady takes :: rest =>
      let r := subscriber_iteration topic rest
      ((reader_ready_arm topic takes).1 ++ r.1, r.2)
  | SubEvent.statusReady _ :: rest => subscriber_iteration topic rest
  | SubEvent.otherToken _ :: rest => subscriber_iteration topic rest

/-- An event delivered by `poll` to the publisher loop, tagged by token.
`statusReady` carries the statuses drained by `try_recv_status`. -/
inductive PubEvent where
  | stopProgram (recv : RecvResult)
  | statusReady (statuses : List String)
  | otherToken (t : Nat)

/-- The mutable publisher state: `shape_sample`, `x_vel`, `y_vel`. -/
structure PubState where
  shape : Shape
  x_vel : Int
  y_vel : Int
deriving DecidableEq, Repr

/-- The state update after the event dispatch: `move_shape` is called once
and its three components are assigned back to the state. -/
def publisher_step (st : PubState) : PubState :=
  let r := move_shape st.shape st.x_vel st.y_vel
  ⟨r.1, r.2.1, r.2.2⟩

/-- One iteration of the publisher loop body, starting at the
`for event in events` dispatch.  `none` means the `return` in the
`STOP_PROGRAM` arm fired.  Otherwise, after all events are dispatched, the
shape is advanced once by `move_shape` and written once; the written
shapes of the iteration are returned with the new state. -/
def publisher_iteration (st : PubState) : List PubEvent → Option (PubState × List Shape)
  | [] =>
      let st2 := publisher_step st
      some (st2, [st2.shape])
  | PubEvent.stopProgram r :: rest =>
      if stop_program_arm r then none
      else publisher_iteration st rest
  | PubEvent.statusReady _ :: rest => publisher_iteration st rest
  | PubEvent.otherToken _ :: rest => publisher_iteration st rest

/-- The "complicated lottery" for an initial velocity component:
`if random() { gen_range(1..5) } else { gen_range(-5..-1) }`, i.e. a value
in `[1, 5)` or in `[-5, -1)`. -/
def valid_init_vel (v : Int) : Prop :=
  (1 ≤ v ∧ v < 5) ∨ (-5 ≤ v ∧ v < -1)

instance (v : Int) : Decidable (valid_init_vel v) := by
  unfold valid_init_vel; infer_instance

/-- The publisher states reachable from program start: the initial shape is
`Shape { color, x: 0, y: 0, shapesize: 21 }` with both velocity components
drawn by the lottery, and every loop iteration that does not terminate
applies `publisher_step`. -/
inductive PubReachable : PubState → Prop where
  | init (color : String) (xv yv : Int)
      (hx : valid_init_vel xv) (hy : valid_init_vel yv) :
      PubReachable ⟨⟨color, 0, 0, 21⟩, xv, yv⟩
  | step (st : PubState) (h : PubReachable st) : PubReachable (publisher_step st)

/-- The `History` QoS policy values used by the program. -/
inductive History where
  | KeepAll
  | KeepLast (depth : Int)
deriving DecidableEq, Repr

/-- The history QoS construction:
`matches.value_of("history_depth").map(|d| d.parse::<i32>())` is matched,
with `None | Some(Err(_)) => KeepAll` and
`Some(Ok(d)) => if d < 0 { KeepAll } else { KeepLast { depth: d } }`.
The argument models `Option<Result<i32, _>>`: `none` is an absent flag,
`some none` a failed parse, `some (some d)` a parsed value.  No branch
prints or panics. -/
def history_qos (history_depth_arg : Option (Option Int)) : History :=
  match history_depth_arg with
  | none => History.KeepAll
  | some none => History.KeepAll
  | some (some d) => if d < 0 then History.KeepAll else History.KeepLast d

lemma half_size_le_of_le (n : Int) (h0 : 0 ≤ n) (h : n ≤ 239) : half_size n ≤ 120 := by
  unfold half_size
  rw [Int.tdiv_eq_ediv h0 (by norm_num)]
  omega

lemma move_shape_vel_cases (s : Shape) (xv yv : Int) :
    ((move_shape s xv yv).2.1 = xv ∨ (move_shape s xv yv).2.1 = -xv)
  ∧ ((move_shape s xv yv).2.2 = yv ∨ (move_shape s xv yv).2.2 = -yv) := by
  simp only [move_shape]
  split_ifs <;> simp

/-- C1: the claim as stated is false: for `shapesize = 240` the bound
`half <= x <= WIDTH - half` is unsatisfiable (`half = 121 > 119`), yet
`shapesize >= 0` and the velocities are nonzero. -/
theorem c1_counterexample :
    (0 : Int) ≤ (240 : Int) ∧ ((1 : Int) ≠ 0) ∧
    ¬(half_size 240 ≤ (move_shape ⟨"BLUE", 0, 0, 240⟩ 1 1).1.x ∧
      (move_shape ⟨"BLUE", 0, 0, 240⟩ 1 1).1.x ≤ DA_WIDTH - half_size 240) := by
  decide

/-- C1 (amended): for every shape with `0 <= shapesize <= 239` (so that
`half <= WIDTH - half`) and nonzero velocities, the shape returned by
`move_shape` satisfies `half <= x <= WIDTH - half` and
`half <= y <= HEIGHT - half` with `half = shapesize/2 + 1`. -/
theorem c1_arena_bounds (s : Shape) (xv yv : Int)
    (h0 : 0 ≤ s.shapesize) (h239 : s.shapesize ≤ 239)
    (hxv : xv ≠ 0) (hyv : yv ≠ 0) :
    half_size s.shapesize ≤ (move_shape s xv yv).1.x
  ∧ (move_shape s xv yv).1.x ≤ DA_WIDTH - half_size s.shapesize
  ∧ half_size s.shapesize ≤ (move_shape s xv yv).1.y
  ∧ (move_shape s xv yv).1.y ≤ DA_HEIGHT - half_size s.shapesize := by
  have hb : half_size s.shapesize ≤ 120 := half_size_le_of_le _ h0 h239
  simp only [move_shape, DA_WIDTH, DA_HEIGHT]
  split_ifs <;> refine ⟨?_, ?_, ?_, ?_⟩ <;> omega

/-- C1 witness: the amended bounds at the program's own initial shape. -/
theorem c1_witness :
    half_size 21 ≤ (move_shape ⟨"BLUE", 0, 0, 21⟩ 1 1).1.x
  ∧ (move_shape ⟨"BLUE", 0, 0, 21⟩ 1 1).1.x ≤ DA_WIDTH - half_size 21
  ∧ half_size 21 ≤ (move_shape ⟨"BLUE", 0, 0, 21⟩ 1 1).1.y
  ∧ (move_shape ⟨"BLUE", 0, 0, 21⟩ 1 1).1.y ≤ DA_HEIGHT - half_size 21 :=
  c1_arena_bounds ⟨"BLUE", 0, 0, 21⟩ 1 1 (by decide) (by decide) (by decide) (by decide)

/-- C2: the claim as stated quantifies over every input, but at `xv = 0`
with the tentative position inside the bounds the returned component `0`
equals `-0`, so "returned component is the negation iff the tentative
coordinate fell out of bounds" fails. -/
theorem c2_counterexample :
    ¬(((move_shape ⟨"BLUE", 100, 100, 20⟩ 0 0).2.1 = -(0 : Int)) ↔
      ((⟨"BLUE", 100, 100, 20⟩ : Shape).x + 0 < half_size 20 ∨
       DA_WIDTH - half_size 20 < (⟨"BLUE", 100, 100, 20⟩ : Shape).x + 0)) := by
  decide

/-- C2 (amended): for inputs with `xv ≠ 0` and `yv ≠ 0` (the only inputs
the program produces), each returned velocity component is the negation of
the input component iff that axis's tentative coordinate fell outside its
arena bounds, is unchanged when it stayed within bounds, and a tentative
position outside both axes' bounds flips both components in one call. -/
theorem c2_velocity_flip_iff (s : Shape) (xv yv : Int)
    (hxv : xv ≠ 0) (hyv : yv ≠ 0) :
    ((move_shape s xv yv).2.1 = -xv ↔
      (s.x + xv < half_size s.shapesize ∨ DA_WIDTH - half_size s.shapesize < s.x + xv))
  ∧ (half_size s.shapesize ≤ s.x + xv ∧ s.x + xv ≤ DA_WIDTH - half_size s.shapesize →
      (move_shape s xv yv).2.1 = xv)
  ∧ ((move_shape s xv yv).2.2 = -yv ↔
      (s.y + yv < half_size s.shapesize ∨ DA_HEIGHT - half_size s.shapesize < s.y + yv))
  ∧ (half_size s.shapesize ≤ s.y + yv ∧ s.y + yv ≤ DA_HEIGHT - half_size s.shapesize →
      (move_shape s xv yv).2.2 = yv)
  ∧ ((s.x + xv < half_size s.shapesize ∨ DA_WIDTH - half_size s.shapesize < s.x + xv) →
     (s.y + yv < half_size s.shapesize ∨ DA_HEIGHT - half_size s.shapesize < s.y + yv) →
      (move_shape s xv yv).2.1 = -xv ∧ (move_shape s xv yv).2.2 = -yv) := by
  simp only [move_shape, DA_WIDTH, DA_HEIGHT]
  split_ifs <;> refine ⟨?_, ?_, ?_, ?_, ?_⟩ <;> omega

/-- C2 witness: a corner collision flips both components. -/
theorem c2_witness :
    ((move_shape ⟨"BLUE", 1, 1, 20⟩ (-3) (-3)).2.1 = -(-3 : Int) ↔
      ((⟨"BLUE", 1, 1, 20⟩ : Shape).x + (-3) < half_size 20 ∨
       DA_WIDTH - half_size 20 < (⟨"BLUE", 1, 1, 20⟩ : Shape).x + (-3))) :=
  (c2_velocity_flip_iff ⟨"BLUE", 1, 1, 20⟩ (-3) (-3) (by decide) (by decide)).1

/-- C6: `move_shape` is deterministic: two calls on identical shape
fields and identical velocity components return identical outputs. -/
theorem c6_deterministic (s1 s2 : Shape) (xv1 yv1 xv2 yv2 : Int)
    (hc : s1.color = s2.color) (hx : s1.x = s2.x) (hy : s1.y = s2.y)
    (hs : s1.shapesize = s2.shapesize) (hxv : xv1 = xv2) (hyv : yv1 = yv2) :
    move_shape s1 xv1 yv1 = move_shape s2 xv2 yv2 := by
  have h : s1 = s2 := by cases s1; cases s2; simp_all
  rw [h, hxv, hyv]

/-- C6 witness: determinism at a concrete input. -/
theorem c6_witness :
    move_shape ⟨"BLUE", 5, 6, 21⟩ 2 3 = move_shape ⟨"BLUE", 5, 6, 21⟩ 2 3 :=
  c6_deterministic ⟨"BLUE", 5, 6, 21⟩ ⟨"BLUE", 5, 6, 21⟩ 2 3 2 3 rfl rfl rfl rfl rfl rfl

/-- C8: `move_shape` returns a shape with the same `color` and the same
`shapesize` as the input shape; only `x` and `y` may differ. -/
theorem c8_frame (s : Shape) (xv yv : Int) :
    (move_shape s xv yv).1.color = s.color
  ∧ (move_shape s xv yv).1.shapesize = s.shapesize :=
  ⟨rfl, rfl⟩

/-- C9: for every input the returned coordinates satisfy the upper bounds
`x <= DA_WIDTH - half` and `y <= DA_HEIGHT - half` (the upper clamp runs
after the lower clamp, so it wins when the bounds invert), and when both
clamps fire on one axis the coordinate is pinned to the upper bound while
the velocity component is the single negation of the input, not a double
negation back to itself. -/
theorem c9_upper_clamp_wins (s : Shape) (xv yv : Int) :
    (move_shape s xv yv).1.x ≤ DA_WIDTH - half_size s.shapesize
  ∧ (move_shape s xv yv).1.y ≤ DA_HEIGHT - half_size s.shapesize
  ∧ (s.x + xv < half_size s.shapesize →
     DA_WIDTH - half_size s.shapesize < half_size s.shapesize →
      (move_shape s xv yv).1.x = DA_WIDTH - half_size s.shapesize
    ∧ (move_shape s xv yv).2.1 = -xv)
  ∧ (s.y + yv < half_size s.shapesize →
     DA_HEIGHT - half_size s.shapesize < half_size s.shapesize →
      (move_shape s xv yv).1.y = DA_HEIGHT - half_size s.shapesize
    ∧ (move_shape s xv yv).2.2 = -yv) := by
  simp only [move_shape, DA_WIDTH, DA_HEIGHT]
  split_ifs <;> refine ⟨?_, ?_, ?_, ?_⟩ <;> omega

/-- C9 witness: at `shapesize = 240` both x-clamps fire: the returned `x`
is `DA_WIDTH - half` (below `half`) and the velocity is singly negated. -/
theorem c9_witness :
    (move_shape ⟨"BLUE", 0, 0, 240⟩ 1 1).1.x = DA_WIDTH - half_size 240
  ∧ (move_shape ⟨"BLUE", 0, 0, 240⟩ 1 1).2.1 = -(1 : Int) :=
  (c9_upper_clamp_wins ⟨"BLUE", 0, 0, 240⟩ 1 1).2.2.1 (by decide) (by decide)

/-- C3: a drain over `N` queued items followed by a no-data result consumes
exactly those `N` items (reporting each, transport errors included) and
returns, leaving everything after the no-data result untouched; only the
no-data result terminates the drain. -/
theorem c3_drain_consumes_all (topic : String) (items rest : List TakeOutcome)
    (h : TakeOutcome.noData ∉ items) :
    reader_ready_arm topic (items ++ TakeOutcome.noData :: rest)
      = ((items.map (take_report topic)).flatten, rest) := by
  induction items with
  | nil => simp [reader_ready_arm]
  | cons a tl ih =>
      have ha : a ≠ TakeOutcome.noData := fun he => h (by simp [he])
      have htl : TakeOutcome.noData ∉ tl := fun he => h (by simp [he])
      cases a with
      | sample s => simp [reader_ready_arm, take_report, ih htl]
      | disposed k => simp [reader_ready_arm, take_report, ih htl]
      | noData => exact absurd rfl ha
      | takeError e => simp [reader_ready_arm, take_report, ih htl]

/-- C3 witness: a drain over three items (a sample, a transport error, a
disposal) consumes exactly those three and stops at the no-data result. -/
theorem c3_witness :
    reader_ready_arm "Square"
        ([TakeOutcome.sample ⟨"BLUE", 5, 6, 21⟩,
          TakeOutcome.takeError "timeout",
          TakeOutcome.disposed "RED"]
         ++ TakeOutcome.noData :: [TakeOutcome.noData])
      = (([TakeOutcome.sample ⟨"BLUE", 5, 6, 21⟩,
           TakeOutcome.takeError "timeout",
           TakeOutcome.disposed "RED"].map (take_report "Square")).flatten,
         [TakeOutcome.noData]) :=
  c3_drain_consumes_all "Square" _ _ (by decide)

/-- C4: the `STOP_PROGRAM` arm terminates the loop iff `try_recv`
succeeds; a spurious or already-consumed wakeup (`Err`) neither crashes
nor terminates and the iteration continues processing, in both the
publisher and the subscriber loop. -/
theorem c4_stop_idempotent :
    (∀ r : RecvResult, stop_program_arm r = true ↔ r = RecvResult.ok)
  ∧ (∀ (st : PubState) (rest : List PubEvent),
      publisher_iteration st (PubEvent.stopProgram RecvResult.ok :: rest) = none)
  ∧ (∀ (st : PubState) (rest : List PubEvent),
      publisher_iteration st (PubEvent.stopProgram RecvResult.err :: rest)
        = publisher_iteration st rest)
  ∧ (∀ (topic : String) (rest : List SubEvent),
      subscriber_iteration topic (SubEvent.stopProgram RecvResult.ok :: rest)
        = ([], true))
  ∧ (∀ (topic : String) (rest : List SubEvent),
      subscriber_iteration topic (SubEvent.stopProgram RecvResult.err :: rest)
        = subscriber_iteration topic rest) := by
  refine ⟨?_, ?_, ?_, ?_, ?_⟩
  · intro r; cases r <;> simp [stop_program_arm]
  · intro st rest; rfl
  · intro st rest; rfl
  · intro topic rest; rfl
  · intro topic rest; rfl

/-- C5: every publisher-loop iteration that does not terminate through the
cancellation path ends with exactly one publish step: one `move_shape`
advance and one write of the advanced shape, whatever events were ready. -/
theorem c5_single_publish (st : PubState) (events : List PubEvent)
    (out : PubState × List Shape)
    (h : publisher_iteration st events = some out) :
    out.1 = publisher_step st
  ∧ out.2 = [(move_shape st.shape st.x_vel st.y_vel).1] := by
  induction events with
  | nil =>
      simp only [publisher_iteration, Option.some.injEq] at h
      rw [← h]
      exact ⟨rfl, rfl⟩
  | cons e tl ih =>
      cases e with
      | stopProgram r =>
          cases r with
          | ok => simp [publisher_iteration, stop_program_arm] at h
          | err => exact ih (by simpa [publisher_iteration, stop_program_arm] using h)
      | statusReady msgs => exact ih (by simpa [publisher_iteration] using h)
      | otherToken t => exact ih (by simpa [publisher_iteration] using h)

/-- C5 witness: an iteration whose wakeup saw a spurious stop event and a
status event still publishes exactly once. -/
theorem c5_witness :
    ((⟨⟨"BLUE", 11, 11, 21⟩, -1, -1⟩, [(⟨"BLUE", 11, 11, 21⟩ : Shape)])
        : PubState × List Shape).1
      = publisher_step ⟨⟨"BLUE", 0, 0, 21⟩, 1, 1⟩
  ∧ ((⟨⟨"BLUE", 11, 11, 21⟩, -1, -1⟩, [(⟨"BLUE", 11, 11, 21⟩ : Shape)])
        : PubState × List Shape).2
      = [(move_shape ⟨"BLUE", 0, 0, 21⟩ 1 1).1] :=
  c5_single_publish ⟨⟨"BLUE", 0, 0, 21⟩, 1, 1⟩
    [PubEvent.stopProgram RecvResult.err, PubEvent.statusReady ["LivelinessLost"]]
    _ rfl

/-- C7: in every reachable publisher state, both velocity components are
nonzero: the initial lottery excludes zero and `move_shape` only ever
keeps or negates a component. -/
theorem c7_velocity_nonzero (st : PubState) (h : PubReachable st) :
    st.x_vel ≠ 0 ∧ st.y_vel ≠ 0 := by
  induction h with
  | init color xv yv hx hy =>
      unfold valid_init_vel at hx hy
      show xv ≠ 0 ∧ yv ≠ 0
      exact ⟨by omega, by omega⟩
  | step st2 h2 ih =>
      have hv := move_shape_vel_cases st2.shape st2.x_vel st2.y_vel
      simp only [publisher_step]
      constructor
      · rcases hv.1 with he | he <;> rw [he] <;> omega
      · rcases hv.2 with he | he <;> rw [he] <;> omega

/-- C7 witness: nonzero velocity at a concrete reachable state, one step
after an initial state. -/
theorem c7_witness :
    (publisher_step ⟨⟨"BLUE", 0, 0, 21⟩, 1, 1⟩).x_vel ≠ 0
  ∧ (publisher_step ⟨⟨"BLUE", 0, 0, 21⟩, 1, 1⟩).y_vel ≠ 0 :=
  c7_velocity_nonzero _
    (PubReachable.step _ (PubReachable.init "BLUE" 1 1 (by decide) (by decide)))

/-- C10: an absent, unparseable or negative history-depth argument yields
`KeepAll` (the construction has no printing or panicking branch), and a
parsed non-negative `d` yields `KeepLast d`. -/
theorem c10_history_policy :
    history_qos none = History.KeepAll
  ∧ history_qos (some none) = History.KeepAll
  ∧ (∀ d : Int, d < 0 → history_qos (some (some d)) = History.KeepAll)
  ∧ (∀ d : Int, 0 ≤ d → history_qos (some (some d)) = History.KeepLast d) := by
  refine ⟨rfl, rfl, ?_, ?_⟩
  · intro d hd; simp [history_qos, hd]
  · intro d hd; simp [history_qos]; omega

/-- C10 witness: the policy at a negative and at a non-negative depth. -/
theorem c10_witness :
    ((-3 : Int) < 0 ∧ history_qos (some (some (-3))) = History.KeepAll)
  ∧ ((0 : Int) ≤ 5 ∧ history_qos (some (some 5)) = History.KeepLast 5) :=
  ⟨⟨by decide, c10_history_policy.2.2.1 (-3) (by decide)⟩,
   ⟨by decide, c10_history_policy.2.2.2 5 (by decide)⟩⟩

end DDSInterop
